import Mathlib

/-!
Verification of the Keycloak admin orchestration layer of KeyCloakReact:
a shallow embedding of the admin REST client (`keycloakAdmin.js`), the
user-management component (`UserManager.jsx`) and the audit-log component
(`AuditLog.jsx`), with theorems about credential refresh, error
classification, paginated enrichment and role-set reconciliation.
-/

namespace KeycloakReact

/-- A JSON value, the result type of a successful `response.json()` call. -/
inductive Json where
  | null : Json
  | bool (b : Bool) : Json
  | num (n : Int) : Json
  | str (s : String) : Json
  | arr (elems : List Json) : Json
  | obj (fields : List (String × Json)) : Json
deriving Repr

/-- A realm role representation: the admin API returns `{id, name, ...}`;
the client keeps only the identifier and the name. -/
structure Role where
  id : String
  name : String
deriving Repr, DecidableEq

/-- A user record as returned by `GET /users`. -/
structure KcUser where
  id : String
  username : String
  email : Option String
  enabled : Bool
deriving Repr, DecidableEq

/-- An audit event as returned by `GET /events`. -/
structure AuditEvent where
  time : Nat
  type : String
  userId : Option String
  ipAddress : String
  clientId : String
  error : Option String
deriving Repr, DecidableEq

/-! ## Admin API client (`src/services/keycloakAdmin.js`, `_request`) -/

/-- The failures `_request` can throw (each is a `new Error(...)` in the
source; we keep them as distinguished cases). The source has no dedicated
case for HTTP 404: any non-2xx status other than 403 and 409 goes through
the generic `API Error ${status}: ${text}` branch, modelled by `apiError`. -/
inductive ApiFailure where
  | noToken : ApiFailure
  | authExpired : ApiFailure
  | forbidden : ApiFailure
  | conflict : ApiFailure
  | apiError (status : Nat) (body : String) : ApiFailure
deriving Repr, DecidableEq

/-- The state of the wrapped `keycloak` session object as `_request` sees
it: the current token (if any) and whether `updateToken(30)` resolves
(`refreshOk = true`) or rejects (`refreshOk = false`). -/
structure Session where
  token : Option String
  refreshOk : Bool
deriving Repr, DecidableEq

/-- The HTTP response handed back by `fetch`: status code, the
`content-length` header (absent for e.g. chunked responses) and the raw
body text. `response.json()` is modelled by applying a JSON parse
function to `body`. -/
structure HttpResponse where
  status : Nat
  contentLength : Option String
  body : String
deriving Repr, DecidableEq

/-- Observable effects of one `_request` invocation, in order. -/
inductive ReqEvent where
  | updateToken (marginSeconds : Nat) : ReqEvent
  | httpFetch (endpoint : String) : ReqEvent
  | parseBody : ReqEvent
deriving Repr, DecidableEq

/-- `response.ok`: status in the range 200..299. -/
def respOk (status : Nat) : Bool :=
  200 ≤ status && status < 300

/-- Error classification of a non-ok response, from the source:
403 and 409 get dedicated errors; everything else (404 included) gets the
generic `API Error ${status}: ${text}`. -/
def classifyFailure (status : Nat) (text : String) : ApiFailure :=
  if status = 403 then ApiFailure.forbidden
  else if status = 409 then ApiFailure.conflict
  else ApiFailure.apiError status text

/-- Shallow embedding of `_request(endpoint, options)`. Inputs are the
session state, the endpoint, the JSON parser (standing for
`response.json()`) and the response `fetch` yields. Returns the ordered
list of observable events together with the outcome: `Except.error` for a
thrown error, `Except.ok (some j)` for parsed JSON, `Except.ok none` for
the `null` returns. -/
def _request (parse : String → Option Json) (sess : Session)
    (endpoint : String) (resp : HttpResponse) :
    List ReqEvent × Except ApiFailure (Option Json) :=
  match sess.token with
  | none => ([], Except.error ApiFailure.noToken)
  | some _ =>
    if sess.refreshOk = false then
      ([ReqEvent.updateToken 30], Except.error ApiFailure.authExpired)
    else
      let pre := [ReqEvent.updateToken 30, ReqEvent.httpFetch endpoint]
      if respOk resp.status = false then
        (pre, Except.error (classifyFailure resp.status resp.body))
      else if resp.contentLength = some "0" ∨ resp.status = 204 then
        (pre, Except.ok none)
      else
        match parse resp.body with
        | some j => (pre ++ [ReqEvent.parseBody], Except.ok (some j))
        | none => (pre ++ [ReqEvent.parseBody], Except.ok none)

/-! ## Enrichment fetch (`UserManager.jsx`, `loadUsers`) -/

/-- The role names filtered out of each enriched user's role set:
`offline_access`, `uma_authorization` and `default-roles-<realm>`. -/
def noiseNames (realm : String) : List String :=
  ["offline_access", "uma_authorization", "default-roles-" ++ realm]

/-- A user together with the role names resolved for it. -/
structure EnrichedUser where
  user : KcUser
  realmRoles : List String
deriving Repr, DecidableEq

/-- Enrichment of one user from the outcome of its
`getUserRealmRoles` sub-fetch: on success, map to names and drop the
noise names; on failure, fall back to an empty role set (the `catch`
branch of `loadUsers`). -/
def enrichUser (realm : String) (u : KcUser)
    (fetched : Except String (List Role)) : EnrichedUser :=
  match fetched with
  | Except.ok userRoles =>
    { user := u
      realmRoles :=
        (userRoles.map Role.name).filter
          (fun n => !(noiseNames realm).contains n) }
  | Except.error _ => { user := u, realmRoles := [] }

/-- The enrichment stage of `loadUsers`: the page of primary users, each
paired with the outcome of its role sub-fetch, is mapped positionally to
enriched users; each failed sub-fetch adds a `console.warn` message to the
warning list instead of aborting. -/
def loadUsersEnrich (realm : String)
    (page : List (KcUser × Except String (List Role))) :
    List EnrichedUser × List String :=
  (page.map (fun p => enrichUser realm p.1 p.2),
   (page.filter (fun p => match p.2 with
      | Except.ok _ => false
      | Except.error _ => true)).map
     (fun p => "Failed to fetch roles for user " ++ p.1.username))

/-! ## Reconciliation and creation (`UserManager.jsx`) -/

/-- A network call issued through the admin service by the create/update
flows. -/
inductive AdminCall where
  | createUser (username : String) (email : String) : AdminCall
  | getUsers (first : Nat) (max : Nat) : AdminCall
  | resetPassword (userId : String) (password : String) : AdminCall
  | addRoleMappings (userId : String) (roles : List Role) : AdminCall
  | removeRoleMappings (userId : String) (roles : List Role) : AdminCall
deriving Repr, DecidableEq

/-- `toAddNames` of `performUpdate`: selected names not currently held. -/
def toAddNames (currentRoleNames newSelectedParams : List String) :
    List String :=
  newSelectedParams.filter (fun r => !currentRoleNames.contains r)

/-- `toRemoveNames` of `performUpdate`: currently held names no longer
selected. -/
def toRemoveNames (currentRoleNames newSelectedParams : List String) :
    List String :=
  currentRoleNames.filter (fun r => !newSelectedParams.contains r)

/-- Shallow embedding of `performUpdate`: given the editing user's id,
its current role names, the checked role names of the form, the fetched
role catalog (`availableRoles`) and the password field, returns the list
of admin calls issued, in order. The grant call is guarded only by
`toAddNames.length > 0`; the revoke call is additionally guarded by the
resolved `rolesToRemove` being non-empty. -/
def performUpdate (userId : String)
    (currentRoleNames newSelectedParams : List String)
    (availableRoles : List Role) (password : String) : List AdminCall :=
  let pwCalls :=
    if password ≠ "" then [AdminCall.resetPassword userId password] else []
  let toAdd := toAddNames currentRoleNames newSelectedParams
  let toRemove := toRemoveNames currentRoleNames newSelectedParams
  let addCalls :=
    if toAdd.length > 0 then
      [AdminCall.addRoleMappings userId
        (availableRoles.filter (fun r => toAdd.contains r.name))]
    else []
  let removeCalls :=
    if toRemove.length > 0 then
      let rolesToRemove :=
        availableRoles.filter (fun r => toRemove.contains r.name)
      if rolesToRemove.length > 0 then
        [AdminCall.removeRoleMappings userId rolesToRemove]
      else []
    else []
  pwCalls ++ addCalls ++ removeCalls

/-- Shallow embedding of `performCreate`: creates the user, re-queries the
user list (`getUsers()` with its defaults `first = 0`, `max = 10`) to
discover the server-assigned id by username, then optionally resets the
password and assigns the checked roles. `requeryResult` is the list the
re-query returns. Outcome is the ordered call list plus success or the
`"User created but not found."` error. -/
def performCreate (username email password : String)
    (selected : List String) (availableRoles : List Role)
    (requeryResult : List KcUser) :
    List AdminCall × Except String Unit :=
  let calls0 := [AdminCall.createUser username email,
                 AdminCall.getUsers 0 10]
  match requeryResult.find? (fun u => u.username = username) with
  | none => (calls0, Except.error "User created but not found.")
  | some createdUser =>
    let pwCalls :=
      if password ≠ "" then
        [AdminCall.resetPassword createdUser.id password]
      else []
    let roleCalls :=
      if selected.length > 0 then
        [AdminCall.addRoleMappings createdUser.id
          (availableRoles.filter (fun r => selected.contains r.name))]
      else []
    (calls0 ++ pwCalls ++ roleCalls, Except.ok ())

/-- Whether a call list contains a grant (`addRealmRoleMappings`) call. -/
def issuesGrant (calls : List AdminCall) : Bool :=
  calls.any (fun c => match c with
    | AdminCall.addRoleMappings _ _ => true
    | _ => false)

/-- Whether a call list contains a revoke (`removeRealmRoleMappings`)
call. -/
def issuesRevoke (calls : List AdminCall) : Bool :=
  calls.any (fun c => match c with
    | AdminCall.removeRoleMappings _ _ => true
    | _ => false)

/-- The role payload carried by a grant/revoke call (empty for the other
calls). -/
def payloadOf : AdminCall → List Role
  | AdminCall.addRoleMappings _ roles => roles
  | AdminCall.removeRoleMappings _ roles => roles
  | _ => []

/-- The user identifier a call addresses, when it addresses one. -/
def usesId : AdminCall → Option String
  | AdminCall.resetPassword userId _ => some userId
  | AdminCall.addRoleMappings userId _ => some userId
  | AdminCall.removeRoleMappings userId _ => some userId
  | _ => none

/-! ## Audit log pagination (`AuditLog.jsx`) -/

/-- The `disabled` predicate of the audit log's Next button:
`events.length < pageSize`. -/
def auditNextDisabled (events : List AuditEvent) (pageSize : Nat) : Bool :=
  events.length < pageSize

/-! ## Spec-side error taxonomy (for comparison with the code) -/

/-- Modelled from the spec: the error taxonomy of §4.2/§7, which has a
dedicated `NotFound` case for HTTP 404 in addition to `Forbidden` (403),
`Conflict` (409) and the generic `ApiError(status, body)`. -/
inductive SpecFailure where
  | forbidden : SpecFailure
  | conflict : SpecFailure
  | notFound : SpecFailure
  | apiError (status : Nat) (body : String) : SpecFailure
deriving Repr, DecidableEq

/-- Modelled from the spec: classification of a non-2xx status per §4.2:
403 ↦ Forbidden, 409 ↦ Conflict, 404 ↦ NotFound, otherwise
ApiError(status, body). -/
def specClassifyFailure (status : Nat) (text : String) : SpecFailure :=
  if status = 403 then SpecFailure.forbidden
  else if status = 409 then SpecFailure.conflict
  else if status = 404 then SpecFailure.notFound
  else SpecFailure.apiError status text

/-- The natural correspondence between the code's surfaced failures and
the spec taxonomy: Forbidden ↔ forbidden, Conflict ↔ conflict, generic
ApiError ↔ apiError with the same status and body. The code has no
counterpart of `notFound`. -/
def matchesSpecFailure : ApiFailure → SpecFailure → Bool
  | ApiFailure.forbidden, SpecFailure.forbidden => true
  | ApiFailure.conflict, SpecFailure.conflict => true
  | ApiFailure.apiError s b, SpecFailure.apiError s' b' =>
      s = s' && b = b'
  | _, _ => false

/-! ## Theorems -/

/-- The enrichment stage returns one entry per page entry. -/
theorem loadUsersEnrich_length (realm : String)
    (page : List (KcUser × Except String (List Role))) :
    (loadUsersEnrich realm page).1.length = page.length := by
  simp [loadUsersEnrich]

/-- C8: for every audit-event page fetched with page size `max`, the
"has more pages" heuristic (the Next control being enabled, i.e. not
disabled) is true exactly when the returned page contains `max` items,
and false whenever it contains fewer. -/
theorem auditNext_hasMore_iff_fullPage (events : List AuditEvent)
    (pageSize : Nat) (h : events.length ≤ pageSize) :
    auditNextDisabled events pageSize = false ↔
      events.length = pageSize := by
  simp only [auditNextDisabled, decide_eq_false_iff_not, not_lt]
  omega

theorem auditNext_hasMore_iff_fullPage_witness :
    ([] : List AuditEvent).length ≤ 10 ∧
      (auditNextDisabled [] 10 = false ↔
        ([] : List AuditEvent).length = 10) :=
  ⟨by decide, auditNext_hasMore_iff_fullPage [] 10 (by decide)⟩

/-- C9: for every user of the page whose role sub-fetch succeeded, the
enriched role-name set contains a name iff it was fetched and is not one
of the noise names `offline_access`, `uma_authorization`,
`default-roles-<realm>`; this holds at every position of the page. -/
theorem loadUsers_filters_noise (realm : String)
    (page : List (KcUser × Except String (List Role)))
    (i : Nat) (hi : i < page.length) (roles : List Role)
    (hok : (page.get ⟨i, hi⟩).2 = Except.ok roles) :
    ∀ n, n ∈ ((loadUsersEnrich realm page).1.get
        ⟨i, by rw [loadUsersEnrich_length]; exact hi⟩).realmRoles ↔
      (n ∈ roles.map Role.name ∧ n ∉ noiseNames realm) := by
  intro n
  have hget : (loadUsersEnrich realm page).1.get
      ⟨i, by rw [loadUsersEnrich_length]; exact hi⟩ =
      enrichUser realm (page.get ⟨i, hi⟩).1 (page.get ⟨i, hi⟩).2 := by
    simp [loadUsersEnrich]
  rw [hget, hok]
  simp [enrichUser]

/-- A sample user for concrete instantiations. -/
def sampleUser : KcUser :=
  { id := "u1", username := "alice", email := some "a@x", enabled := true }

/-- A sample fetched role list containing one noise role. -/
def sampleRoles : List Role :=
  [{ id := "r1", name := "doctor" }, { id := "r2", name := "offline_access" }]

/-- A sample one-user page with a successful sub-fetch. -/
def samplePage : List (KcUser × Except String (List Role)) :=
  [(sampleUser, Except.ok sampleRoles)]

theorem loadUsers_filters_noise_witness :
    (samplePage.get ⟨0, by decide⟩).2 = Except.ok sampleRoles ∧
    ("doctor" ∈ ((loadUsersEnrich "my-react-app" samplePage).1.get
        ⟨0, by rw [loadUsersEnrich_length]; decide⟩).realmRoles ↔
      ("doctor" ∈ sampleRoles.map Role.name ∧
        "doctor" ∉ noiseNames "my-react-app")) :=
  ⟨rfl,
   loadUsers_filters_noise "my-react-app" samplePage 0 (by decide)
     sampleRoles rfl "doctor"⟩

/-- C3: if the role sub-fetch of the page entry at position `i` fails and
every other entry's sub-fetch succeeds, the enrichment still returns one
entry per page entry, in server order (the `j`-th result carries the
`j`-th fetched user), with the failed entry carrying an empty role set,
and the failure recorded as a warning message instead of being raised. -/
theorem loadUsers_partial_failure (realm : String)
    (page : List (KcUser × Except String (List Role)))
    (i : Nat) (hi : i < page.length) (e : String)
    (hfail : (page.get ⟨i, hi⟩).2 = Except.error e)
    (_hrest : ∀ j (hj : j < page.length), j ≠ i →
      ∃ roles, (page.get ⟨j, hj⟩).2 = Except.ok roles) :
    (loadUsersEnrich realm page).1.length = page.length ∧
    ((loadUsersEnrich realm page).1.get
        ⟨i, by rw [loadUsersEnrich_length]; exact hi⟩).realmRoles = [] ∧
    (∀ j (hj : j < page.length),
      ((loadUsersEnrich realm page).1.get
          ⟨j, by rw [loadUsersEnrich_length]; exact hj⟩).user =
        (page.get ⟨j, hj⟩).1) ∧
    "Failed to fetch roles for user " ++ (page.get ⟨i, hi⟩).1.username ∈
      (loadUsersEnrich realm page).2 := by
  refine ⟨loadUsersEnrich_length realm page, ?_, ?_, ?_⟩
  · have hget : (loadUsersEnrich realm page).1.get
        ⟨i, by rw [loadUsersEnrich_length]; exact hi⟩ =
        enrichUser realm (page.get ⟨i, hi⟩).1 (page.get ⟨i, hi⟩).2 := by
      simp [loadUsersEnrich]
    rw [hget, hfail]
    rfl
  · intro j hj
    have hget : (loadUsersEnrich realm page).1.get
        ⟨j, by rw [loadUsersEnrich_length]; exact hj⟩ =
        enrichUser realm (page.get ⟨j, hj⟩).1 (page.get ⟨j, hj⟩).2 := by
      simp [loadUsersEnrich]
    rw [hget]
    cases h : (page.get ⟨j, hj⟩).2 <;> simp [enrichUser]
  · have hmem : page.get ⟨i, hi⟩ ∈ page.filter (fun p => match p.2 with
        | Except.ok _ => false
        | Except.error _ => true) := by
      rw [List.mem_filter]
      refine ⟨List.get_mem page i hi, ?_⟩
      rw [hfail]
    exact List.mem_map_of_mem _ hmem

/-- A sample two-user page whose second sub-fetch failed. -/
def sampleFailPage : List (KcUser × Except String (List Role)) :=
  samplePage ++ [(sampleUser, Except.error "boom")]

theorem loadUsers_partial_failure_witness :
    (sampleFailPage.get ⟨1, by decide⟩).2 = Except.error "boom" ∧
    (loadUsersEnrich "my-react-app" sampleFailPage).1.length =
      sampleFailPage.length ∧
    "Failed to fetch roles for user " ++
        (sampleFailPage.get ⟨1, by decide⟩).1.username ∈
      (loadUsersEnrich "my-react-app" sampleFailPage).2 :=
  have hb : (1 : Nat) < sampleFailPage.length := by decide
  have hfail : (sampleFailPage.get ⟨1, hb⟩).2 = Except.error "boom" := rfl
  have h := loadUsers_partial_failure "my-react-app" sampleFailPage 1 hb
    "boom" hfail
    (by
      intro j hj hne
      have hj2 : j < 2 := by
        simpa [sampleFailPage, samplePage] using hj
      interval_cases j
      · exact ⟨sampleRoles, rfl⟩
      · exact absurd rfl hne)
  ⟨hfail, h.1, h.2.2.2⟩

/-- The grant call of `performUpdate` is issued exactly when `toAddNames`
is non-empty. -/
theorem performUpdate_grant_iff (uid : String) (C D : List String)
    (cat : List Role) (pw : String) :
    issuesGrant (performUpdate uid C D cat pw) = true ↔
      toAddNames C D ≠ [] := by
  simp only [performUpdate, issuesGrant, List.any_append, Bool.or_eq_true]
  split_ifs <;> simp_all [List.length_pos]

/-- The revoke call of `performUpdate` is issued exactly when
`toRemoveNames` is non-empty and at least one of its names resolves in
the catalog. -/
theorem performUpdate_revoke_iff (uid : String) (C D : List String)
    (cat : List Role) (pw : String) :
    issuesRevoke (performUpdate uid C D cat pw) = true ↔
      (toRemoveNames C D ≠ [] ∧
        cat.filter (fun r => (toRemoveNames C D).contains r.name) ≠ []) := by
  simp only [performUpdate, issuesRevoke, List.any_append, Bool.or_eq_true]
  split_ifs <;> simp_all [List.length_pos]

/-- C1 counterexample: with current roles `{"ghost"}`, desired roles `{}`
and a catalog that lacks `"ghost"`, the difference C−D is non-empty yet
`performUpdate` issues no revoke call. -/
theorem performUpdate_revoke_guard_cex :
    toRemoveNames ["ghost"] [] ≠ [] ∧
    issuesRevoke (performUpdate "u1" ["ghost"] [] [] "") = false := by
  decide

/-- C1 (amended): `performUpdate` issues a grant call iff D−C is
non-empty; it issues a revoke call iff C−D is non-empty and at least one
name of C−D has a matching catalog record; and when the desired set
equals the current set it issues zero grant/revoke calls. -/
theorem performUpdate_call_guards (uid : String) (C D : List String)
    (cat : List Role) (pw : String) :
    (issuesGrant (performUpdate uid C D cat pw) = true ↔
      toAddNames C D ≠ []) ∧
    (issuesRevoke (performUpdate uid C D cat pw) = true ↔
      (toRemoveNames C D ≠ [] ∧
        cat.filter (fun r => (toRemoveNames C D).contains r.name) ≠ [])) ∧
    ((∀ x, x ∈ D ↔ x ∈ C) →
      issuesGrant (performUpdate uid C D cat pw) = false ∧
      issuesRevoke (performUpdate uid C D cat pw) = false) := by
  refine ⟨performUpdate_grant_iff uid C D cat pw,
    performUpdate_revoke_iff uid C D cat pw, ?_⟩
  intro hDC
  have hA : toAddNames C D = [] := by
    simp only [toAddNames, List.filter_eq_nil_iff]
    intro a ha
    simp [(hDC a).mp ha]
  have hR : toRemoveNames C D = [] := by
    simp only [toRemoveNames, List.filter_eq_nil_iff]
    intro a ha
    simp [(hDC a).mpr ha]
  constructor
  · rw [Bool.eq_false_iff]
    intro h
    exact (performUpdate_grant_iff uid C D cat pw).mp h hA
  · rw [Bool.eq_false_iff]
    intro h
    exact ((performUpdate_revoke_iff uid C D cat pw).mp h).1 hR

theorem performUpdate_call_guards_witness :
    issuesGrant (performUpdate "u1" ["doctor"] ["doctor"]
        [{ id := "r1", name := "doctor" }] "") = false ∧
    issuesRevoke (performUpdate "u1" ["doctor"] ["doctor"]
        [{ id := "r1", name := "doctor" }] "") = false :=
  (performUpdate_call_guards "u1" ["doctor"] ["doctor"]
      [{ id := "r1", name := "doctor" }] "").2.2 (fun _ => Iff.rfl)

/-- Every role in any payload issued by `performUpdate` comes from the
supplied catalog. -/
theorem performUpdate_payload_sub (uid : String) (C D : List String)
    (cat : List Role) (pw : String) :
    ∀ c ∈ performUpdate uid C D cat pw, ∀ r ∈ payloadOf c, r ∈ cat := by
  intro c hc r hr
  simp only [performUpdate, List.mem_append] at hc
  rcases hc with (hc | hc) | hc
  · split_ifs at hc <;> simp_all [payloadOf]
  · split_ifs at hc <;> simp_all [payloadOf, List.mem_filter]
  · split_ifs at hc <;> simp_all [payloadOf, List.mem_filter]

/-- C6: a name of `toAddNames`/`toRemoveNames` with no matching catalog
record never appears in the payload of any grant/revoke call issued by
`performUpdate`; the operation still completes (it is silently dropped,
not a failure). -/
theorem performUpdate_unknown_name_dropped (uid : String)
    (C D : List String) (cat : List Role) (pw : String) (n : String)
    (_hn : n ∈ toAddNames C D ∨ n ∈ toRemoveNames C D)
    (hcat : ∀ r ∈ cat, r.name ≠ n) :
    ∀ c ∈ performUpdate uid C D cat pw, ∀ r ∈ payloadOf c, r.name ≠ n :=
  fun c hc r hr => hcat r (performUpdate_payload_sub uid C D cat pw c hc r hr)

theorem performUpdate_unknown_name_dropped_witness :
    ("ghost" ∈ toAddNames ["doctor"] ["doctor", "ghost"] ∨
      "ghost" ∈ toRemoveNames ["doctor"] ["doctor", "ghost"]) ∧
    (∀ c ∈ performUpdate "u1" ["doctor"] ["doctor", "ghost"]
        [{ id := "r1", name := "doctor" }] "",
      ∀ r ∈ payloadOf c, r.name ≠ "ghost") :=
  ⟨by decide,
   performUpdate_unknown_name_dropped "u1" ["doctor"] ["doctor", "ghost"]
     [{ id := "r1", name := "doctor" }] "" "ghost" (by decide) (by decide)⟩

/-- C5: `performCreate` never invents an identifier: every call that
addresses a user id uses the id of a user found in the re-query result
under the created username; if the re-query yields no match the flow
fails with `"User created but not found."` after only the create and
re-query calls; and the call list is always the create call, then the
re-query, then (optionally) the password reset, then (optionally) the
role assignment, in that order. -/
theorem performCreate_discovers_id (username email pw : String)
    (selected : List String) (cat : List Role) (requery : List KcUser) :
    (∀ c ∈ (performCreate username email pw selected cat requery).1,
      ∀ uid, usesId c = some uid →
        ∃ u, u ∈ requery ∧ u.username = username ∧ u.id = uid) ∧
    (requery.find? (fun u => u.username = username) = none →
      performCreate username email pw selected cat requery =
        ([AdminCall.createUser username email, AdminCall.getUsers 0 10],
         Except.error "User created but not found.")) ∧
    (∃ pwPart rolePart,
      (performCreate username email pw selected cat requery).1 =
        [AdminCall.createUser username email, AdminCall.getUsers 0 10] ++
          pwPart ++ rolePart ∧
      (∀ c ∈ pwPart, ∃ uid, c = AdminCall.resetPassword uid pw) ∧
      (∀ c ∈ rolePart, ∃ uid roles,
        c = AdminCall.addRoleMappings uid roles)) := by
  cases hfind : requery.find? (fun u => u.username = username) with
  | none =>
    refine ⟨?_, fun _ => by simp [performCreate, hfind], [], [], ?_, ?_, ?_⟩
    · intro c hc uid huid
      simp only [performCreate, hfind] at hc
      simp at hc
      rcases hc with rfl | rfl <;> simp [usesId] at huid
    · simp [performCreate, hfind]
    · intro c hc
      simp at hc
    · intro c hc
      simp at hc
  | some cu =>
    have hmem : cu ∈ requery := List.mem_of_find?_eq_some hfind
    have hname : cu.username = username := by
      have h := List.find?_some hfind
      simpa using h
    refine ⟨?_, ?_, ?_⟩
    · intro c hc uid huid
      simp only [performCreate, hfind, List.mem_append] at hc
      rcases hc with (hc | hc) | hc
      · simp at hc
        rcases hc with rfl | rfl <;> simp [usesId] at huid
      · split_ifs at hc <;> simp_all [usesId]
        exact ⟨cu, hmem, hname, huid⟩
      · split_ifs at hc <;> simp_all [usesId]
        exact ⟨cu, hmem, hname, huid⟩
    · intro h
      exact Option.noConfusion h
    · refine ⟨(if pw ≠ "" then [AdminCall.resetPassword cu.id pw] else []),
        (if selected.length > 0 then
          [AdminCall.addRoleMappings cu.id
            (cat.filter (fun r => selected.contains r.name))]
         else []), ?_, ?_, ?_⟩
      · simp [performCreate, hfind]
      · intro c hc
        split_ifs at hc <;> simp_all
      · intro c hc
        split_ifs at hc <;> simp_all

theorem performCreate_discovers_id_witness :
    performCreate "bob" "b@x" "pw" [] [] [] =
      ([AdminCall.createUser "bob" "b@x", AdminCall.getUsers 0 10],
       Except.error "User created but not found.") :=
  (performCreate_discovers_id "bob" "b@x" "pw" [] [] []).2.1 rfl

/-- C4: whenever `_request` issues the HTTP call, the trace of effects
starts with `updateToken 30` — the credential refresh with the 30-second
margin — immediately followed by the fetch, and the refresh completed
successfully; no invocation fetches without first awaiting the refresh. -/
theorem request_refresh_before_fetch (parse : String → Option Json)
    (sess : Session) (endpoint : String) (resp : HttpResponse)
    (hfetch : ReqEvent.httpFetch endpoint ∈
      (_request parse sess endpoint resp).1) :
    (_request parse sess endpoint resp).1.take 2 =
      [ReqEvent.updateToken 30, ReqEvent.httpFetch endpoint] ∧
    sess.refreshOk = true := by
  cases htok : sess.token with
  | none => simp [_request, htok] at hfetch
  | some t =>
    cases href : sess.refreshOk with
    | false => simp [_request, htok, href] at hfetch
    | true =>
      refine ⟨?_, rfl⟩
      by_cases hbad : respOk resp.status = false
      · simp [_request, htok, href, hbad]
      · by_cases hcond : resp.contentLength = some "0" ∨ resp.status = 204
        · simp [_request, htok, href, hbad, hcond]
        · cases hp : parse resp.body <;>
            simp [_request, htok, href, hbad, hcond, hp]

/-- A sample successful 200 response with a JSON object body. -/
def sampleOkResp : HttpResponse :=
  { status := 200, contentLength := some "2", body := "{}" }

/-- A sample parse function standing for `response.json()`: accepts only
the body `"{}"`. -/
def sampleParse : String → Option Json :=
  fun s => if s = "{}" then some (Json.obj []) else none

/-- A sample live session. -/
def sampleSession : Session :=
  { token := some "tok", refreshOk := true }

theorem request_refresh_before_fetch_witness :
    ReqEvent.httpFetch "/users" ∈
      (_request sampleParse sampleSession "/users" sampleOkResp).1 ∧
    ((_request sampleParse sampleSession "/users" sampleOkResp).1.take 2 =
      [ReqEvent.updateToken 30, ReqEvent.httpFetch "/users"] ∧
    sampleSession.refreshOk = true) :=
  have hfetch : ReqEvent.httpFetch "/users" ∈
      (_request sampleParse sampleSession "/users" sampleOkResp).1 := by
    simp [_request, sampleParse, sampleSession, sampleOkResp, respOk]
  ⟨hfetch,
   request_refresh_before_fetch sampleParse sampleSession "/users"
     sampleOkResp hfetch⟩

/-- C2 counterexample: a concrete 404 response is surfaced by `_request`
as the generic `apiError 404` (the same branch as any other unclassified
status), which does not correspond to the spec taxonomy's dedicated
`NotFound` classification of a 404. -/
theorem request_404_generic_cex :
    (_request sampleParse sampleSession "/users/x"
        { status := 404, contentLength := none, body := "nf" }).2 =
      Except.error (ApiFailure.apiError 404 "nf") ∧
    matchesSpecFailure (ApiFailure.apiError 404 "nf")
      (specClassifyFailure 404 "nf") = false := by
  exact ⟨rfl, by decide⟩

/-- C2 (amended): for a non-2xx response reached with a live session,
`_request` surfaces 403 as the access-denied error (never as a parse
error: the body is never JSON-parsed on a failure), 409 as the conflict
error, and every other non-2xx status — 404 included — as the generic
`apiError` carrying the raw status and response body. -/
theorem request_error_classification (parse : String → Option Json)
    (sess : Session) (endpoint : String) (resp : HttpResponse)
    (htok : sess.token.isSome = true) (href : sess.refreshOk = true)
    (hbad : respOk resp.status = false) :
    (_request parse sess endpoint resp).2 =
      Except.error (classifyFailure resp.status resp.body) ∧
    ReqEvent.parseBody ∉ (_request parse sess endpoint resp).1 ∧
    (resp.status = 403 →
      (_request parse sess endpoint resp).2 =
        Except.error ApiFailure.forbidden) ∧
    (resp.status = 409 → resp.status ≠ 403 →
      (_request parse sess endpoint resp).2 =
        Except.error ApiFailure.conflict) ∧
    (resp.status ≠ 403 → resp.status ≠ 409 →
      (_request parse sess endpoint resp).2 =
        Except.error (ApiFailure.apiError resp.status resp.body)) := by
  cases htok2 : sess.token with
  | none => rw [htok2] at htok; simp at htok
  | some t =>
    have hres : _request parse sess endpoint resp =
        ([ReqEvent.updateToken 30, ReqEvent.httpFetch endpoint],
         Except.error (classifyFailure resp.status resp.body)) := by
      simp [_request, htok2, href, hbad]
    refine ⟨by rw [hres], by rw [hres]; simp, ?_, ?_, ?_⟩
    · intro h403
      rw [hres]
      simp [classifyFailure, h403]
    · intro h409 h403
      rw [hres]
      simp [classifyFailure, h403, h409]
    · intro h403 h409
      rw [hres]
      simp [classifyFailure, h403, h409]

theorem request_error_classification_witness :
    sampleSession.token.isSome = true ∧
    sampleSession.refreshOk = true ∧
    respOk 403 = false ∧
    (_request sampleParse sampleSession "/events"
        { status := 403, contentLength := none, body := "denied" }).2 =
      Except.error ApiFailure.forbidden :=
  ⟨by decide, by decide, by decide,
   (request_error_classification sampleParse sampleSession "/events"
       { status := 403, contentLength := none, body := "denied" }
       (by decide) (by decide) (by decide)).2.2.1 rfl⟩

/-- C7: for a successful response reached with a live session, `_request`
returns `null` on a 204 status or a content-length of 0 without touching
the JSON parser; it also returns `null` on a zero-length body (the
swallowed parse failure); in every other case with a body that parses as
JSON it returns the parsed value. -/
theorem request_null_on_204_or_empty (parse : String → Option Json)
    (sess : Session) (endpoint : String) (resp : HttpResponse)
    (htok : sess.token.isSome = true) (href : sess.refreshOk = true)
    (hok : respOk resp.status = true) (hpe : parse "" = none) :
    ((resp.status = 204 ∨ resp.contentLength = some "0") →
      (_request parse sess endpoint resp).2 = Except.ok none ∧
      ReqEvent.parseBody ∉ (_request parse sess endpoint resp).1) ∧
    (resp.body = "" → (_request parse sess endpoint resp).2 =
      Except.ok none) ∧
    (∀ j, resp.status ≠ 204 → resp.contentLength ≠ some "0" →
      parse resp.body = some j →
      (_request parse sess endpoint resp).2 = Except.ok (some j)) := by
  cases htok2 : sess.token with
  | none => rw [htok2] at htok; simp at htok
  | some t =>
    have hok2 : (respOk resp.status = false) = False := by
      simp [hok]
    refine ⟨?_, ?_, ?_⟩
    · intro h
      have hcond : (resp.contentLength = some "0" ∨ resp.status = 204) := by
        tauto
      simp [_request, htok2, href, hok2, hcond]
    · intro hbody
      by_cases hcond : resp.contentLength = some "0" ∨ resp.status = 204
      · simp [_request, htok2, href, hok2, hcond]
      · simp [_request, htok2, href, hok2, hcond, hbody, hpe]
    · intro j h204 hlen hparse
      have hcond : ¬(resp.contentLength = some "0" ∨ resp.status = 204) := by
        tauto
      simp [_request, htok2, href, hok2, hcond, hparse]

theorem request_null_on_204_or_empty_witness :
    sampleSession.token.isSome = true ∧
    sampleSession.refreshOk = true ∧
    respOk 204 = true ∧
    sampleParse "" = none ∧
    (_request sampleParse sampleSession "/users/u1/reset-password"
        { status := 204, contentLength := none, body := "" }).2 =
      Except.ok none :=
  ⟨by decide, by decide, by decide, rfl,
   ((request_null_on_204_or_empty sampleParse sampleSession
       "/users/u1/reset-password"
       { status := 204, contentLength := none, body := "" }
       (by decide) (by decide) (by decide) rfl).1
     (Or.inl rfl)).1⟩

/-- C10: a successful, non-204, non-zero-content-length response whose
body does not parse as JSON makes `_request` return `null` (`Except.ok
none`) instead of surfacing a parse error: no caller observes a JSON
parse failure on a successful response. -/
theorem request_invalid_json_null (parse : String → Option Json)
    (sess : Session) (endpoint : String) (resp : HttpResponse)
    (htok : sess.token.isSome = true) (href : sess.refreshOk = true)
    (hok : respOk resp.status = true) (h204 : resp.status ≠ 204)
    (hlen : resp.contentLength ≠ some "0")
    (hparse : parse resp.body = none) :
    (_request parse sess endpoint resp).2 = Except.ok none := by
  cases htok2 : sess.token with
  | none => rw [htok2] at htok; simp at htok
  | some t =>
    have hok2 : (respOk resp.status = false) = False := by
      simp [hok]
    have hcond : ¬(resp.contentLength = some "0" ∨ resp.status = 204) := by
      tauto
    simp [_request, htok2, href, hok2, hcond, hparse]

theorem request_invalid_json_null_witness :
    sampleSession.token.isSome = true ∧
    sampleSession.refreshOk = true ∧
    respOk 200 = true ∧
    (200 : Nat) ≠ 204 ∧
    (some "9" : Option String) ≠ some "0" ∧
    sampleParse "<html>" = none ∧
    (_request sampleParse sampleSession "/users/count"
        { status := 200, contentLength := some "9", body := "<html>" }).2 =
      Except.ok none :=
  ⟨by decide, by decide, by decide, by decide, by decide, rfl,
   request_invalid_json_null sampleParse sampleSession "/users/count"
     { status := 200, contentLength := some "9", body := "<html>" }
     (by decide) (by decide) (by decide) (by decide) (by decide) rfl⟩

end KeycloakReact
